import Mathlib

/-!
Verification of the KYC client's submission API, liveness sequencer,
blink/centering geometry and recording flow, as a shallow embedding of
`src/kyc-project/src/api/api.ts`, `src/kyc-project/src/components/KYC/KYCForm.tsx`
and the recording/detection variants (`part_004`, `part_005`, `part_007`,
`part_008`).
-/

namespace KYCApi

/-- The JSON body of a backend response, as far as the client inspects it:
`message` (optional string) and a body-level `success` flag that the client
code never reads (`error.response.data as Record<string, any>` only has
`.message` accessed). -/
structure RespBody where
  message : Option String
  bodySuccess : Option Bool
deriving DecidableEq, Repr

/-- The `KYCResponse` type from `api.ts`:
`{ success: boolean; message?: string; data?: any }`. -/
structure KYCResponse where
  success : Bool
  message : Option String
  data : Option RespBody
deriving DecidableEq, Repr

/-- `error.response` of an `AxiosError`: present iff the server answered with a
non-2xx status. -/
structure ErrResponse where
  status : Nat
  data : RespBody
deriving DecidableEq, Repr

/-- The parts of an `AxiosError` that `handleApiError` reads:
`error.response` and `error.config?.url`. -/
structure AxiosError where
  response : Option ErrResponse
  url : Option String
deriving DecidableEq, Repr

/-- Values thrown by `handleApiError` (`throw new Error(...)`): the HTTP 400
branch throws `JSON.stringify(error.response.data)` (we carry the data itself),
the default branch throws a generic error. -/
inductive Thrown where
  | badRequest (data : RespBody)
  | generic
deriving DecidableEq, Repr

/-- Side effects of `handleApiError`: `localStorage.removeItem('token')` and
`window.location.href = '/login'`. -/
structure ApiEffects where
  tokenRemoved : Bool
  redirectedToLogin : Bool
deriving DecidableEq, Repr

/-- No side effect. -/
def noEffects : ApiEffects := { tokenRemoved := false, redirectedToLogin := false }

/-- JavaScript `a || b` on an optional string `a`: `undefined` and the empty
string are falsy. -/
def jsOr (a : Option String) (b : String) : String :=
  match a with
  | some s => if s = "" then b else s
  | none => b

/-- `pat` occurs as a contiguous sublist at the head of `s`. -/
def listStartsWith : List Char → List Char → Bool
  | [], _ => true
  | _ :: _, [] => false
  | a :: as, b :: bs => a = b && listStartsWith as bs

/-- `pat` occurs as a contiguous sublist somewhere in `s`
(JavaScript `String.prototype.includes`). -/
def listContainsSub (pat : List Char) : List Char → Bool
  | [] => listStartsWith pat []
  | c :: rest => listStartsWith pat (c :: rest) || listContainsSub pat rest

/-- JavaScript `s.includes(pat)`. -/
def strIncludes (s pat : String) : Bool := listContainsSub pat.toList s.toList

/-- `error.config?.url?.includes('/kyc/kyc/')` — `undefined` url is falsy. -/
def urlHasKyc (u : Option String) : Bool :=
  match u with
  | some s => strIncludes s "/kyc/kyc/"
  | none => false

/-- `handleApiError` from `api.ts` lines 22-56. Returns the value produced
(`Except.error` models a `throw`) together with its side effects. The KYC
endpoint branch returns before the status switch; the 401 branch `break`s out
of the switch and falls through to the fallback return. -/
def handleApiError (e : AxiosError) : Except Thrown KYCResponse × ApiEffects :=
  match e.response with
  | some resp =>
    if urlHasKyc e.url then
      (Except.ok
        { success := false
          message := some (jsOr resp.data.message "KYC verification failed")
          data := none },
       noEffects)
    else if resp.status = 400 then
      (Except.error (Thrown.badRequest resp.data), noEffects)
    else if resp.status = 401 then
      (Except.ok
        { success := false, message := some "An unexpected error occurred", data := none },
       { tokenRemoved := true, redirectedToLogin := true })
    else
      (Except.error Thrown.generic, noEffects)
  | none =>
    (Except.ok
      { success := false, message := some "An unexpected error occurred", data := none },
     noEffects)

/-- Outcome of the `api.post('/kyc/kyc/', ...)` call: axios resolves with the
body on a 2xx status, and rejects with an `AxiosError` otherwise (carrying the
response when the server answered, nothing on a network failure). -/
inductive HttpFailure where
  | status (code : Nat) (data : RespBody)
  | network
deriving DecidableEq, Repr

/-- The outcome axios hands to `submitKYC`'s try/catch. -/
inductive HttpOutcome where
  | ok (data : RespBody)
  | err (f : HttpFailure)
deriving DecidableEq, Repr

/-- The `AxiosError` seen by `handleApiError` for a failed post to
`/kyc/kyc/`: `error.config.url` is the request url. -/
def kycAxiosError (f : HttpFailure) : AxiosError :=
  { url := some "/kyc/kyc/"
    response :=
      match f with
      | HttpFailure.status code data => some { status := code, data := data }
      | HttpFailure.network => none }

/-- `submitKYC` from `api.ts` lines 92-110: on a 2xx response it returns
`success: true` with `response.data.message || 'KYC verification successful'`;
on any rejection it returns `handleApiError(error)`. -/
def submitKYC (o : HttpOutcome) : Except Thrown KYCResponse × ApiEffects :=
  match o with
  | HttpOutcome.ok data =>
    (Except.ok
      { success := true
        message := some (jsOr data.message "KYC verification successful")
        data := some data },
     noEffects)
  | HttpOutcome.err f => handleApiError (kycAxiosError f)

end KYCApi

namespace Seq

/-- The `VerificationStep` union type of `KYCForm.tsx`. -/
inductive Step where
  | instructions
  | initializing
  | initialBlink
  | lookStraight
  | finalBlink
  | processing
  | complete
deriving DecidableEq, Repr

/-- The component state of `KYCForm.tsx` that the verification logic touches:
`step`, `blinkCount`, `lastBlinkTime` (a ref holding a millisecond timestamp),
`faceDetected`, `capturedImage`. `submissions` counts the `handleSubmit`
invocations issued by `autoCapture`, so that theorems can speak about whether
evidence was ever submitted. -/
structure FormState where
  step : Step
  blinkCount : Nat
  lastBlinkTime : Int
  faceDetected : Bool
  capturedImage : Option String
  submissions : Nat
deriving DecidableEq, Repr

/-- The numeric results of one landmark detection, as consumed by the
sequencer: `averageEAR` is the value `(leftEAR + rightEAR) / 2` that
`checkBlink` computes via `getEyeAspectRatio`, and `distanceFromCenter` is the
value `checkStraightFace` computes from the jaw landmarks and the video size.
The landmark-to-number geometry itself is modelled over the reals in the
`Geom` namespace (claims about the formulas); the sequencer only ever branches
on these two numbers. -/
structure Detection where
  averageEAR : Rat
  distanceFromCenter : Rat
deriving DecidableEq, Repr

/-- `autoCapture` (`KYCForm.tsx` lines 172-181): take a screenshot; if one is
produced, store it, move to `processing` and invoke `handleSubmit`. When
`getScreenshot()` returns null nothing happens. -/
def autoCapture (st : FormState) (shot : Option String) : FormState :=
  match shot with
  | some img =>
    { st with capturedImage := some img, step := Step.processing,
              submissions := st.submissions + 1 }
  | none => st

/-- `checkBlink` (`KYCForm.tsx` lines 105-131): when the averaged eye aspect
ratio is below 0.2 and more than 500ms have passed since the last counted
blink, record the blink time and increment the counter; on the first blink of
`initial-blink` move to `look-straight` and reset the counter to 0; on the
second blink of `final-blink` run `autoCapture`. The `step` tests use the
step value captured at the start of the tick, as the React closure does. -/
def checkBlink (st : FormState) (averageEAR : Rat) (now : Int)
    (shot : Option String) : FormState :=
  if averageEAR < 0.2 ∧ now - st.lastBlinkTime > 500 then
    let newCount := st.blinkCount + 1
    if st.step = Step.initialBlink ∧ newCount ≥ 1 then
      { st with lastBlinkTime := now, step := Step.lookStraight, blinkCount := 0 }
    else if st.step = Step.finalBlink ∧ newCount ≥ 2 then
      autoCapture { st with lastBlinkTime := now, blinkCount := newCount } shot
    else
      { st with lastBlinkTime := now, blinkCount := newCount }
  else st

/-- `checkStraightFace` (`KYCForm.tsx` lines 146-170) as seen by the
sequencer: when the computed distance from the video center is below 100,
move to `final-blink`. -/
def checkStraightFace (st : FormState) (distanceFromCenter : Rat) : FormState :=
  if distanceFromCenter < 100 then { st with step := Step.finalBlink } else st

/-- One body of the `detectFace` polling callback (`KYCForm.tsx` lines 68-96):
on a detection, set `faceDetected` and dispatch to `checkBlink` or
`checkStraightFace` according to the current step; on no detection, only clear
`faceDetected`. -/
def detectFaceStep (st : FormState) (d : Option Detection) (now : Int)
    (shot : Option String) : FormState :=
  match d with
  | some det =>
    let st1 := { st with faceDetected := true }
    if st.step = Step.initialBlink ∨ st.step = Step.finalBlink then
      checkBlink st1 det.averageEAR now shot
    else if st.step = Step.lookStraight then
      checkStraightFace st1 det.distanceFromCenter
    else st1
  | none => { st with faceDetected := false }

/-- One polling tick: the detection interval runs only while the step is one
of `initial-blink`, `look-straight`, `final-blink` (`KYCForm.tsx` line 98). -/
structure Frame where
  detection : Option Detection
  time : Int
  shot : Option String
deriving DecidableEq, Repr

/-- Apply one polling tick to the state. -/
def stepFrame (st : FormState) (f : Frame) : FormState :=
  if st.step = Step.initialBlink ∨ st.step = Step.lookStraight ∨
     st.step = Step.finalBlink then
    detectFaceStep st f.detection f.time f.shot
  else st

/-- Run the polling loop over a list of ticks, one tick after the other. -/
def runFrames : FormState → List Frame → FormState
  | st, [] => st
  | st, f :: fs => runFrames (stepFrame st f) fs

/-- `resetVerification` (`KYCForm.tsx` lines 199-204). -/
def resetVerification (st : FormState) : FormState :=
  { st with step := Step.instructions, blinkCount := 0, capturedImage := none,
            faceDetected := false }

/-- `startVerification` (`KYCForm.tsx` lines 206-210): the user clicks start. -/
def startVerification (st : FormState) : FormState :=
  { st with step := Step.initializing, blinkCount := 0, capturedImage := none }

/-- Successful model loading (`KYCForm.tsx` lines 36-57): `initializing`
moves to `initial-blink`. -/
def finishInit (st : FormState) : FormState :=
  { st with step := Step.initialBlink }

/-- The component's initial state (`useState` initialisers), with the mount
time `t0` stored in the `lastBlinkTime` ref (`useRef(Date.now())`). -/
def initState (t0 : Int) : FormState :=
  { step := Step.instructions, blinkCount := 0, lastBlinkTime := t0,
    faceDetected := false, capturedImage := none, submissions := 0 }

/-- `handleSubmit` (`KYCForm.tsx` lines 183-197) composed with `submitKYC`:
the awaited result is discarded; if `submitKYC` resolves the step becomes
`complete`, and only a rejection reaches the catch branch that calls
`resetVerification`. -/
def handleSubmitOutcome (st : FormState) (o : KYCApi.HttpOutcome) : FormState :=
  match (KYCApi.submitKYC o).1 with
  | Except.ok _ => { st with step := Step.complete }
  | Except.error _ => resetVerification st

end Seq

namespace Seq7

/-- The `VerificationStep` union type of the `part_007` variant. -/
inductive Step where
  | instructions
  | initializing
  | detecting
  | blinking
  | holding
  | processing
  | complete
deriving DecidableEq, Repr

/-- Component state of the `part_007` variant. -/
structure FormState where
  step : Step
  blinkCount : Nat
  holdTimer : Nat
  lastBlinkTime : Int
  faceDetected : Bool
deriving DecidableEq, Repr

/-- `checkBlink` of `part_007` (lines 62-82): same 0.2 threshold and 500ms
cooldown; on the second blink move to `holding`. -/
def checkBlink (st : FormState) (averageEAR : Rat) (now : Int) : FormState :=
  if averageEAR < 0.2 ∧ now - st.lastBlinkTime > 500 then
    let newCount := st.blinkCount + 1
    if newCount = 2 then
      { st with lastBlinkTime := now, blinkCount := newCount, step := Step.holding }
    else
      { st with lastBlinkTime := now, blinkCount := newCount }
  else st

/-- One body of the `detectFace` polling callback of `part_007`
(lines 102-137). On a detection: set `faceDetected`; if the step captured by
the closure was `detecting`, move to `blinking`; if it was `blinking`
(the closure value, not the freshly set one), run `checkBlink`. On no
detection: clear `faceDetected`, and only when the step was `holding` fall
back to `detecting` with the hold timer and blink count reset. -/
def detectFaceStep (st : FormState) (d : Option Rat) (now : Int) : FormState :=
  match d with
  | some averageEAR =>
    let st1 := { st with faceDetected := true }
    let st2 := if st.step = Step.detecting then { st1 with step := Step.blinking } else st1
    if st.step = Step.blinking then checkBlink st2 averageEAR now else st2
  | none =>
    let st1 := { st with faceDetected := false }
    if st.step = Step.holding then
      { st1 with step := Step.detecting, holdTimer := 2, blinkCount := 0 }
    else st1

end Seq7

namespace Rec4

/-- The `VerificationStep` union type of the `part_004` recording variant. -/
inductive Step where
  | permissions
  | instructions
  | recording
  | processing
  | complete
deriving DecidableEq, Repr

/-- Recording-flow state of `part_004`: the step, the sizes of the buffered
chunks (`chunksRef`, which only ever receives chunks with `size > 0`), the
countdown value and whether a camera stream is held. -/
structure RState where
  step : Step
  chunks : List Nat
  recordingTime : Nat
  cameraActive : Bool
deriving DecidableEq, Repr

/-- `new Blob(chunks).size`: the sum of the chunk sizes. -/
def blobSize (chunks : List Nat) : Nat := chunks.foldl (fun a b => a + b) 0

/-- `resetVerification` of `part_004` (lines 168-179): stop the stream
tracks, return to `permissions`, clear the chunk buffer and timer. -/
def resetVerification (_st : RState) : RState :=
  { step := Step.permissions, chunks := [], recordingTime := 0,
    cameraActive := false }

/-- How `handleStopRecording` classified the recording. -/
inductive Outcome where
  | emptyRecording
  | tooLarge
  | verified
  | rejected
deriving DecidableEq, Repr

/-- `handleStopRecording` of `part_004` (lines 111-165): enter `processing`;
if the concatenated blob is empty, toast and reset without submitting; if it
exceeds 10MB, toast and reset without submitting; otherwise submit and branch
on `response.success`. `resp` is the response `submitKYC` would resolve with;
the returned flag records whether `submitKYC` was actually called. -/
def handleStopRecording (st : RState) (resp : KYCApi.KYCResponse) :
    RState × Outcome × Bool :=
  let st1 := { st with step := Step.processing }
  let size := blobSize st1.chunks
  if size = 0 then
    (resetVerification st1, Outcome.emptyRecording, false)
  else if size > 10 * 1024 * 1024 then
    (resetVerification st1, Outcome.tooLarge, false)
  else if resp.success then
    ({ st1 with step := Step.complete }, Outcome.verified, true)
  else
    (resetVerification st1, Outcome.rejected, true)

end Rec4

namespace Rec5

/-- The `VerificationStep` union type of the `part_005` recording variant. -/
inductive Step where
  | instructions
  | recording
  | processing
  | complete
deriving DecidableEq, Repr

/-- Recording-flow state of `part_005`. -/
structure RState where
  step : Step
  chunks : List Nat
  recordingTime : Nat
deriving DecidableEq, Repr

/-- `resetVerification` of `part_005` (lines 142-147). -/
def resetVerification (_st : RState) : RState :=
  { step := Step.instructions, chunks := [], recordingTime := 0 }

/-- `handleStopRecording` of `part_005` (lines 97-139): enter `processing`;
if the blob is empty, toast and reset without submitting; otherwise submit;
`response && response.success` completes, anything else throws into the catch
which resets. -/
def handleStopRecording (st : RState) (resp : KYCApi.KYCResponse) :
    RState × Rec4.Outcome × Bool :=
  let st1 := { st with step := Step.processing }
  if Rec4.blobSize st1.chunks = 0 then
    (resetVerification st1, Rec4.Outcome.emptyRecording, false)
  else if resp.success then
    ({ st1 with step := Step.complete }, Rec4.Outcome.verified, true)
  else
    (resetVerification st1, Rec4.Outcome.rejected, true)

end Rec5

namespace Geom

/-- A face-api landmark point (`faceapi.Point`). -/
structure Point where
  x : ℝ
  y : ℝ

/-- `getDistance` (`KYCForm.tsx` lines 140-144, `part_008` lines 49-53):
`Math.sqrt((p2.x - p1.x)^2 + (p2.y - p1.y)^2)`. -/
noncomputable def getDistance (q1 q2 : Point) : ℝ :=
  Real.sqrt ((q2.x - q1.x) ^ 2 + (q2.y - q1.y) ^ 2)

/-- The six boundary points of one eye as returned by
`landmarks.getLeftEye()` / `getRightEye()`, indexed 0-5 as the source
indexes the array. -/
structure Eye where
  p0 : Point
  p1 : Point
  p2 : Point
  p3 : Point
  p4 : Point
  p5 : Point

/-- `getEyeAspectRatio` (`KYCForm.tsx` lines 133-138, `part_008` lines
41-47): `(dist(eye[1],eye[5]) + dist(eye[2],eye[4])) / (2 * dist(eye[0],eye[3]))`. -/
noncomputable def getEyeAspectRatio (eye : Eye) : ℝ :=
  (getDistance eye.p1 eye.p5 + getDistance eye.p2 eye.p4) /
    (2 * getDistance eye.p0 eye.p3)

/-- `detectBlink` (`part_008` lines 30-39) and the blink test of `checkBlink`:
the average of the two per-eye ratios is below 0.2. -/
def detectBlink (leftEye rightEye : Eye) : Prop :=
  (getEyeAspectRatio leftEye + getEyeAspectRatio rightEye) / 2 < 0.2

/-- Euclidean distance between two points, written from the spec's words
("Euclidean point distances") for comparison with the source's `getDistance`. -/
noncomputable def euclidDist (p q : Point) : ℝ :=
  Real.sqrt ((p.x - q.x) ^ 2 + (p.y - q.y) ^ 2)

/-- The spec's EAR formula, written from the spec's words:
`EAR = (vertical_dist_1 + vertical_dist_2) / (2 * horizontal_dist)` with the
vertical distances taken between points 1,5 and 2,4 and the horizontal
distance between points 0,3. -/
noncomputable def earSpecFormula (eye : Eye) : ℝ :=
  (euclidDist eye.p1 eye.p5 + euclidDist eye.p2 eye.p4) /
    (2 * euclidDist eye.p0 eye.p3)

/-- The spec's blink rule: averaged EAR of both eyes below 0.2. -/
def blinkSpecRule (leftEye rightEye : Eye) : Prop :=
  (earSpecFormula leftEye + earSpecFormula rightEye) / 2 < 1 / 5

/-- JavaScript `a || b` on numbers: `0` (and only `0`, among the values that
arise here) is falsy. -/
noncomputable def jsNumOr (a b : ℝ) : ℝ := if a = 0 then b else a

/-- The face center computed by both `checkStraightFace` variants:
the midpoint of jaw landmarks 0 and 16. -/
noncomputable def faceCenter (jaw0 jaw16 : Point) : Point :=
  { x := (jaw0.x + jaw16.x) / 2, y := (jaw0.y + jaw16.y) / 2 }

/-- The video center of the first `checkStraightFace` variant
(`KYCForm.tsx` lines 156-159): `video?.width || 0 / 2` parses as
`width || (0 / 2)`, so a nonzero width is used unhalved. -/
noncomputable def videoCenterV1 (w h : ℝ) : Point :=
  { x := jsNumOr w (0 / 2), y := jsNumOr h (0 / 2) }

/-- The video center of the second `checkStraightFace` variant
(`KYCForm.tsx` lines 409-412): `(video?.width || 0) / 2`. -/
noncomputable def videoCenterV2 (w h : ℝ) : Point :=
  { x := jsNumOr w 0 / 2, y := jsNumOr h 0 / 2 }

/-- `distanceFromCenter` as both variants compute it
(`Math.sqrt((faceCenter.x - videoCenter.x)^2 + (faceCenter.y - videoCenter.y)^2)`). -/
noncomputable def distanceFromCenter (fc vc : Point) : ℝ :=
  Real.sqrt ((fc.x - vc.x) ^ 2 + (fc.y - vc.y) ^ 2)

/-- The first variant signals "centered" (and advances to `final-blink`)
when its distance is below 100. -/
def centeredV1 (jaw0 jaw16 : Point) (w h : ℝ) : Prop :=
  distanceFromCenter (faceCenter jaw0 jaw16) (videoCenterV1 w h) < 100

/-- The second variant signals "centered" when its distance is below 100. -/
def centeredV2 (jaw0 jaw16 : Point) (w h : ℝ) : Prop :=
  distanceFromCenter (faceCenter jaw0 jaw16) (videoCenterV2 w h) < 100

/-- The centering rule written from the spec's words: Euclidean distance
between the jaw-midpoint face center and the frame center
(half the width, half the height) below 100 pixels. -/
def centeredSpecRule (jaw0 jaw16 : Point) (w h : ℝ) : Prop :=
  euclidDist (faceCenter jaw0 jaw16) { x := w / 2, y := h / 2 } < 100

/-- `getDistance` is the Euclidean distance. -/
theorem getDistance_eq_euclidDist (q1 q2 : Point) :
    getDistance q1 q2 = euclidDist q1 q2 := by
  unfold getDistance euclidDist
  congr 1
  ring

/-- `a || 0` is `a` for real number models of JS numbers. -/
theorem jsNumOr_zero (a : ℝ) : jsNumOr a 0 = a := by
  unfold jsNumOr
  split
  next h => exact h.symm
  next => rfl

end Geom

/-- Every rejected post to `/kyc/kyc/` is classified by `handleApiError`'s
KYC-endpoint branch (response present) or by the fallback (network failure):
`submitKYC` resolves with `success = false` and a message, and never throws. -/
theorem submitKYC_err_spec (f : KYCApi.HttpFailure) :
    ∃ r : KYCApi.KYCResponse,
      KYCApi.submitKYC (KYCApi.HttpOutcome.err f) = (Except.ok r, KYCApi.noEffects) ∧
      r.success = false ∧ r.message.isSome = true := by
  cases f with
  | status code data =>
    refine ⟨{ success := false,
              message := some (KYCApi.jsOr data.message "KYC verification failed"),
              data := none }, ?_, rfl, rfl⟩
    unfold KYCApi.submitKYC KYCApi.kycAxiosError KYCApi.handleApiError
    dsimp only
    rw [if_pos (by decide : KYCApi.urlHasKyc (some "/kyc/kyc/") = true)]
  | network =>
    exact ⟨{ success := false, message := some "An unexpected error occurred",
             data := none }, rfl, rfl, rfl⟩

/-- C1: the claim says an HTTP 2xx response whose body carries a failure
message (`message: "Verification failed"` with HTTP 200) yields
`success = false`. The code's `submitKYC` returns `success := true`
unconditionally on every 2xx response, merely copying the backend message:
at that exact input the result has `success = true`. -/
theorem C1_counterexample :
    KYCApi.submitKYC (KYCApi.HttpOutcome.ok
      { message := some "Verification failed", bodySuccess := some false }) =
    (Except.ok
      { success := true, message := some "Verification failed",
        data := some { message := some "Verification failed", bodySuccess := some false } },
     KYCApi.noEffects) := by
  rfl

/-- C1 (amended): for every submission whose HTTP response has a 2xx status
and whose body carries a non-empty message, `submitKYC` returns
`success = true` with the backend's message — the body-level failure flag is
never inspected, so a backend-reported failure with HTTP 200 is reported as a
success carrying the backend's message. -/
theorem C1_amended (body : KYCApi.RespBody) (m : String)
    (hm : body.message = some m) (hne : m ≠ "") :
    KYCApi.submitKYC (KYCApi.HttpOutcome.ok body) =
      (Except.ok { success := true, message := some m, data := some body },
       KYCApi.noEffects) := by
  unfold KYCApi.submitKYC KYCApi.jsOr
  dsimp only
  rw [hm]
  simp [hne]

/-- C1 witness: the amended statement at the claim's concrete input. -/
theorem C1_amended_witness :
    KYCApi.submitKYC (KYCApi.HttpOutcome.ok
      { message := some "Verification failed", bodySuccess := none }) =
    (Except.ok
      { success := true, message := some "Verification failed",
        data := some { message := some "Verification failed", bodySuccess := none } },
     KYCApi.noEffects) :=
  C1_amended _ "Verification failed" rfl (by decide)

/-- C2: the claim says an HTTP 401 clears the stored token regardless of the
endpoint, including `/kyc/kyc/`. But `handleApiError` returns from its
KYC-endpoint branch before the status switch is reached, so a 401 on
`/kyc/kyc/` does not remove the token. -/
theorem C2_counterexample :
    (KYCApi.handleApiError
      { response := some { status := 401,
                           data := { message := some "Unauthorized", bodySuccess := none } },
        url := some "/kyc/kyc/" }).2.tokenRemoved = false := by
  rfl

/-- C2 (amended): an HTTP 401 clears the stored token exactly when the request
URL does not include `/kyc/kyc/`; on the KYC endpoint the error is classified
by the KYC branch and the token is kept. -/
theorem C2_amended (e : KYCApi.AxiosError) (resp : KYCApi.ErrResponse)
    (hr : e.response = some resp) (hs : resp.status = 401) :
    (KYCApi.handleApiError e).2.tokenRemoved = true ↔
      KYCApi.urlHasKyc e.url = false := by
  unfold KYCApi.handleApiError
  rw [hr]
  by_cases hk : KYCApi.urlHasKyc e.url = true
  · simp [hk, KYCApi.noEffects]
  · have hk' : KYCApi.urlHasKyc e.url = false := by
      cases h : KYCApi.urlHasKyc e.url
      · rfl
      · exact absurd h hk
    simp [hk', hs, KYCApi.noEffects]

/-- C2 witness: a 401 on the login endpoint does clear the token. -/
theorem C2_amended_witness :
    (KYCApi.handleApiError
      { response := some { status := 401, data := { message := none, bodySuccess := none } },
        url := some "/auth/login/" }).2.tokenRemoved = true :=
  (C2_amended
    { response := some { status := 401, data := { message := none, bodySuccess := none } },
      url := some "/auth/login/" }
    { status := 401, data := { message := none, bodySuccess := none } }
    rfl rfl).mpr (by decide)

/-- C3: the claim says the sequencer reaches `complete` only on a successful
result and resets to `instructions` on a failure result. But `handleSubmit`
discards the awaited `KYCResponse`: an HTTP 400 on the KYC endpoint makes
`submitKYC` resolve with `success = false`, and the sequencer still moves from
`processing` to `complete`, keeping the captured evidence and blink count. -/
theorem C3_counterexample :
    ((KYCApi.submitKYC (KYCApi.HttpOutcome.err (KYCApi.HttpFailure.status 400
        { message := some "Verification failed", bodySuccess := some false }))).1 =
      Except.ok { success := false, message := some "Verification failed", data := none }) ∧
    (Seq.handleSubmitOutcome
        { step := Seq.Step.processing, blinkCount := 2, lastBlinkTime := 1000,
          faceDetected := true, capturedImage := some "evidence", submissions := 1 }
        (KYCApi.HttpOutcome.err (KYCApi.HttpFailure.status 400
          { message := some "Verification failed", bodySuccess := some false })) =
      { step := Seq.Step.complete, blinkCount := 2, lastBlinkTime := 1000,
        faceDetected := true, capturedImage := some "evidence", submissions := 1 }) := by
  exact ⟨rfl, rfl⟩

/-- C3 (amended): the sequencer moves from `processing` to `complete` whenever
`submitKYC` resolves, regardless of whether the result reports success — and
on the KYC endpoint `submitKYC` always resolves, so the
reset-to-`instructions` catch branch never runs. -/
theorem C3_amended (st : Seq.FormState) (o : KYCApi.HttpOutcome) :
    (Seq.handleSubmitOutcome st o).step = Seq.Step.complete := by
  unfold Seq.handleSubmitOutcome
  cases o with
  | ok data => rfl
  | err f =>
    obtain ⟨r, hr, -, -⟩ := submitKYC_err_spec f
    rw [show (KYCApi.submitKYC (KYCApi.HttpOutcome.err f)).1 = Except.ok r by rw [hr]]

/-- C10: `submitKYC` never throws: every axios rejection on the `/kyc/kyc/`
endpoint — any HTTP error status or a network failure without a response —
resolves to a `KYCResponse` with `success = false` and a message, and
consequently `handleSubmit`'s catch branch (the session reset) is unreachable
via `submitKYC`: the sequencer always proceeds to `complete`. -/
theorem C10_submitKYC_never_throws :
    (∀ f : KYCApi.HttpFailure, ∃ r : KYCApi.KYCResponse,
      (KYCApi.submitKYC (KYCApi.HttpOutcome.err f)).1 = Except.ok r ∧
      r.success = false ∧ r.message.isSome = true) ∧
    (∀ (st : Seq.FormState) (f : KYCApi.HttpFailure),
      (Seq.handleSubmitOutcome st (KYCApi.HttpOutcome.err f)).step =
        Seq.Step.complete) := by
  constructor
  · intro f
    obtain ⟨r, hr, hs, hm⟩ := submitKYC_err_spec f
    exact ⟨r, by rw [hr], hs, hm⟩
  · intro st f
    unfold Seq.handleSubmitOutcome
    obtain ⟨r, hr, -, -⟩ := submitKYC_err_spec f
    rw [show (KYCApi.submitKYC (KYCApi.HttpOutcome.err f)).1 = Except.ok r by rw [hr]]

/-- C4: for a pair of successive frames whose averaged eye-aspect-ratio is
below 0.2, where the first frame signals a blink (more than 500ms after the
previous one) and the second arrives less than 500ms later, `checkBlink`
increments the blink counter exactly once: the first call increments it and
the second call leaves the state unchanged. -/
theorem C4_blink_debounce (st : Seq.FormState) (a1 a2 : Rat) (t1 t2 : Int)
    (s1 s2 : Option String)
    (hstep : st.step = Seq.Step.finalBlink) (hbc : st.blinkCount = 0)
    (h1 : a1 < 0.2) (hfirst : t1 - st.lastBlinkTime > 500)
    (_h2 : a2 < 0.2) (hgap : t2 - t1 < 500) :
    (Seq.checkBlink st a1 t1 s1).blinkCount = st.blinkCount + 1 ∧
    Seq.checkBlink (Seq.checkBlink st a1 t1 s1) a2 t2 s2 =
      Seq.checkBlink st a1 t1 s1 := by
  have hres : Seq.checkBlink st a1 t1 s1 =
      { st with lastBlinkTime := t1, blinkCount := st.blinkCount + 1 } := by
    unfold Seq.checkBlink
    rw [if_pos ⟨h1, hfirst⟩]
    rw [if_neg (by rw [hstep]; simp)]
    rw [if_neg (by rw [hstep, hbc]; simp)]
  refine ⟨by rw [hres], ?_⟩
  rw [hres]
  unfold Seq.checkBlink
  rw [if_neg]
  intro hcond
  have : t2 - t1 > 500 := hcond.2
  omega

/-- C4 witness: two sub-threshold frames 100ms apart count one blink. -/
theorem C4_blink_debounce_witness :
    (Seq.checkBlink
      { step := Seq.Step.finalBlink, blinkCount := 0, lastBlinkTime := 0,
        faceDetected := true, capturedImage := none, submissions := 0 }
      (1 / 10) 600 none).blinkCount = 0 + 1 ∧
    Seq.checkBlink
      (Seq.checkBlink
        { step := Seq.Step.finalBlink, blinkCount := 0, lastBlinkTime := 0,
          faceDetected := true, capturedImage := none, submissions := 0 }
        (1 / 10) 600 none) (1 / 10) 700 none =
    Seq.checkBlink
      { step := Seq.Step.finalBlink, blinkCount := 0, lastBlinkTime := 0,
        faceDetected := true, capturedImage := none, submissions := 0 }
      (1 / 10) 600 none :=
  C4_blink_debounce _ _ _ _ _ none none rfl rfl (by norm_num) (by decide)
    (by norm_num) (by decide)

/-- C6: the claim says a detection-dependent state whose face is lost for more
than one polling cycle reverts toward the face-detection state. In
`KYCForm.tsx` a missed detection only clears `faceDetected`: after two
consecutive polling cycles without a face, the step is still `final-blink`. -/
theorem C6_counterexample :
    (Seq.runFrames
      { step := Seq.Step.finalBlink, blinkCount := 1, lastBlinkTime := 0,
        faceDetected := true, capturedImage := none, submissions := 0 }
      [ { detection := none, time := 100, shot := none },
        { detection := none, time := 200, shot := none } ]).step =
      Seq.Step.finalBlink := by
  rfl

/-- C6 (amended): losing the face only clears the `faceDetected` flag. In
`KYCForm.tsx` the step never changes on a missed detection; in the `part_007`
variant a missed detection leaves `blinking` in place and only the `holding`
state falls back to `detecting` (with blink count reset). -/
theorem C6_amended :
    (∀ (st : Seq.FormState) (t : Int) (s : Option String),
      (Seq.detectFaceStep st none t s).step = st.step ∧
      (Seq.detectFaceStep st none t s).faceDetected = false) ∧
    (∀ (st : Seq7.FormState) (t : Int), st.step = Seq7.Step.blinking →
      (Seq7.detectFaceStep st none t).step = Seq7.Step.blinking) ∧
    (∀ (st : Seq7.FormState) (t : Int), st.step = Seq7.Step.holding →
      (Seq7.detectFaceStep st none t).step = Seq7.Step.detecting ∧
      (Seq7.detectFaceStep st none t).blinkCount = 0) := by
  refine ⟨fun st t s => ⟨rfl, rfl⟩, fun st t h => ?_, fun st t h => ?_⟩
  · unfold Seq7.detectFaceStep
    rw [if_neg (by rw [h]; simp)]
    exact h
  · unfold Seq7.detectFaceStep
    rw [if_pos (by rw [h])]
    exact ⟨rfl, rfl⟩

/-- C6 witness: the amended statement at concrete states. -/
theorem C6_amended_witness :
    (Seq.detectFaceStep
      { step := Seq.Step.initialBlink, blinkCount := 0, lastBlinkTime := 0,
        faceDetected := true, capturedImage := none, submissions := 0 }
      none 5 none).step = Seq.Step.initialBlink ∧
    (Seq7.detectFaceStep
      { step := Seq7.Step.blinking, blinkCount := 1, holdTimer := 2,
        lastBlinkTime := 0, faceDetected := true } none 5).step =
      Seq7.Step.blinking ∧
    (Seq7.detectFaceStep
      { step := Seq7.Step.holding, blinkCount := 2, holdTimer := 2,
        lastBlinkTime := 0, faceDetected := true } none 5).step =
      Seq7.Step.detecting :=
  ⟨(C6_amended.1 _ 5 none).1, C6_amended.2.1 _ 5 rfl, (C6_amended.2.2 _ 5 rfl).1⟩

/-- When every polled frame has no detection, a state sitting in
`initial-blink` stays there, capturing and submitting nothing. -/
theorem runFrames_no_face_invariant (fs : List Seq.Frame) :
    ∀ st : Seq.FormState, (∀ f ∈ fs, f.detection = none) →
    st.step = Seq.Step.initialBlink →
    (Seq.runFrames st fs).step = Seq.Step.initialBlink ∧
    (Seq.runFrames st fs).capturedImage = st.capturedImage ∧
    (Seq.runFrames st fs).submissions = st.submissions := by
  induction fs with
  | nil => exact fun st _ hst => ⟨hst, rfl, rfl⟩
  | cons f fs ih =>
    intro st hall hst
    have hf : f.detection = none := hall f (by simp)
    have hone : Seq.stepFrame st f = { st with faceDetected := false } := by
      unfold Seq.stepFrame Seq.detectFaceStep
      rw [if_pos (Or.inl hst), hf]
    have hrun : Seq.runFrames st (f :: fs) = Seq.runFrames (Seq.stepFrame st f) fs := rfl
    have := ih (Seq.stepFrame st f) (fun g hg => hall g (by simp [hg]))
      (by rw [hone]; exact hst)
    rw [hrun, hone]
    rw [hone] at this
    exact this

/-- C7: starting from `instructions` (user click, then successful model load),
if every detection observation reports no face, the sequencer never reaches
`processing` and never captures or submits evidence. Because the statement
holds for every all-`none` frame list, it holds in particular for every prefix
of such a run, so `processing` is never visited along the way. -/
theorem C7_no_face_never_processing (t0 : Int) (fs : List Seq.Frame)
    (hall : ∀ f ∈ fs, f.detection = none) :
    (Seq.runFrames (Seq.finishInit (Seq.startVerification (Seq.initState t0))) fs).step =
      Seq.Step.initialBlink ∧
    (Seq.runFrames (Seq.finishInit (Seq.startVerification (Seq.initState t0))) fs).step ≠
      Seq.Step.processing ∧
    (Seq.runFrames (Seq.finishInit (Seq.startVerification (Seq.initState t0))) fs).capturedImage =
      none ∧
    (Seq.runFrames (Seq.finishInit (Seq.startVerification (Seq.initState t0))) fs).submissions =
      0 := by
  obtain ⟨h1, h2, h3⟩ :=
    runFrames_no_face_invariant fs
      (Seq.finishInit (Seq.startVerification (Seq.initState t0))) hall rfl
  refine ⟨h1, ?_, h2.trans rfl, h3.trans rfl⟩
  rw [h1]
  decide

/-- C7 witness: two all-`none` polling ticks from a fresh session. -/
theorem C7_no_face_never_processing_witness :
    (Seq.runFrames (Seq.finishInit (Seq.startVerification (Seq.initState 0)))
      [ { detection := none, time := 100, shot := none },
        { detection := none, time := 200, shot := none } ]).step =
      Seq.Step.initialBlink ∧
    (Seq.runFrames (Seq.finishInit (Seq.startVerification (Seq.initState 0)))
      [ { detection := none, time := 100, shot := none },
        { detection := none, time := 200, shot := none } ]).step ≠
      Seq.Step.processing ∧
    (Seq.runFrames (Seq.finishInit (Seq.startVerification (Seq.initState 0)))
      [ { detection := none, time := 100, shot := none },
        { detection := none, time := 200, shot := none } ]).capturedImage = none ∧
    (Seq.runFrames (Seq.finishInit (Seq.startVerification (Seq.initState 0)))
      [ { detection := none, time := 100, shot := none },
        { detection := none, time := 200, shot := none } ]).submissions = 0 :=
  C7_no_face_never_processing 0 _ (by simp)

/-- C8: in both timed-recording variants, a recording whose chunk buffer
concatenates to zero bytes is classified as an empty recording: the handler
resets the session and does not call `submitKYC`; and whenever `submitKYC` is
called, the recorded blob was non-empty. -/
theorem C8_empty_recording_never_submits :
    (∀ (st : Rec4.RState) (resp : KYCApi.KYCResponse),
      Rec4.blobSize st.chunks = 0 →
      Rec4.handleStopRecording st resp =
        (Rec4.resetVerification st, Rec4.Outcome.emptyRecording, false)) ∧
    (∀ (st : Rec5.RState) (resp : KYCApi.KYCResponse),
      Rec4.blobSize st.chunks = 0 →
      Rec5.handleStopRecording st resp =
        (Rec5.resetVerification st, Rec4.Outcome.emptyRecording, false)) ∧
    (∀ (st : Rec4.RState) (resp : KYCApi.KYCResponse),
      (Rec4.handleStopRecording st resp).2.2 = true →
      Rec4.blobSize st.chunks ≠ 0) ∧
    (∀ (st : Rec5.RState) (resp : KYCApi.KYCResponse),
      (Rec5.handleStopRecording st resp).2.2 = true →
      Rec4.blobSize st.chunks ≠ 0) := by
  refine ⟨fun st resp h => ?_, fun st resp h => ?_, fun st resp h => ?_,
          fun st resp h => ?_⟩
  · unfold Rec4.handleStopRecording
    rw [if_pos h]
    rfl
  · unfold Rec5.handleStopRecording
    rw [if_pos h]
    rfl
  · intro hz
    unfold Rec4.handleStopRecording at h
    rw [if_pos hz] at h
    exact Bool.noConfusion h
  · intro hz
    unfold Rec5.handleStopRecording at h
    rw [if_pos hz] at h
    exact Bool.noConfusion h

/-- C8 witness: an empty chunk buffer resets both variants without a submit. -/
theorem C8_empty_recording_never_submits_witness :
    Rec4.handleStopRecording
      { step := Rec4.Step.recording, chunks := [], recordingTime := 4,
        cameraActive := true }
      { success := true, message := none, data := none } =
    (Rec4.resetVerification
      { step := Rec4.Step.recording, chunks := [], recordingTime := 4,
        cameraActive := true },
     Rec4.Outcome.emptyRecording, false) ∧
    Rec5.handleStopRecording
      { step := Rec5.Step.recording, chunks := [], recordingTime := 4 }
      { success := true, message := none, data := none } =
    (Rec5.resetVerification
      { step := Rec5.Step.recording, chunks := [], recordingTime := 4 },
     Rec4.Outcome.emptyRecording, false) :=
  ⟨C8_empty_recording_never_submits.1 _ _ rfl,
   C8_empty_recording_never_submits.2.1 _ _ rfl⟩

/-- C9: for every eye given as six boundary points the source's
`getEyeAspectRatio` equals the spec's EAR formula
`(dist(p1,p5) + dist(p2,p4)) / (2 * dist(p0,p3))` with Euclidean distances,
and `detectBlink` signals a blink exactly when the average of the two eye
ratios is below 0.2. -/
theorem C9_ear_matches_spec :
    (∀ eye : Geom.Eye, Geom.getEyeAspectRatio eye = Geom.earSpecFormula eye) ∧
    (∀ leftEye rightEye : Geom.Eye,
      Geom.detectBlink leftEye rightEye ↔ Geom.blinkSpecRule leftEye rightEye) := by
  have hear : ∀ eye : Geom.Eye, Geom.getEyeAspectRatio eye = Geom.earSpecFormula eye := by
    intro eye
    unfold Geom.getEyeAspectRatio Geom.earSpecFormula
    rw [Geom.getDistance_eq_euclidDist, Geom.getDistance_eq_euclidDist,
        Geom.getDistance_eq_euclidDist]
  refine ⟨hear, fun l r => ?_⟩
  unfold Geom.detectBlink Geom.blinkSpecRule
  rw [hear, hear]
  norm_num

/-- C5: the centering rule holds for the second `checkStraightFace` variant,
which agrees with the spec's rule on all inputs; but the first variant
computes the "video center" as the full frame size (`video?.width || 0 / 2`
parses as `width || (0/2)`), so a face perfectly centered in a 1280x720 frame
(both extreme jaw landmarks at (640,360)) is NOT signalled as centered by the
first variant even though the spec's rule (and the second variant) says it is. -/
theorem C5_centering_first_variant_diverges :
    (∀ (jaw0 jaw16 : Geom.Point) (w h : ℝ),
      Geom.centeredV2 jaw0 jaw16 w h ↔ Geom.centeredSpecRule jaw0 jaw16 w h) ∧
    Geom.centeredSpecRule { x := 640, y := 360 } { x := 640, y := 360 } 1280 720 ∧
    ¬ Geom.centeredV1 { x := 640, y := 360 } { x := 640, y := 360 } 1280 720 := by
  refine ⟨fun jaw0 jaw16 w h => ?_, ?_, ?_⟩
  · unfold Geom.centeredV2 Geom.centeredSpecRule Geom.videoCenterV2
      Geom.distanceFromCenter Geom.euclidDist
    rw [Geom.jsNumOr_zero, Geom.jsNumOr_zero]
  · unfold Geom.centeredSpecRule Geom.euclidDist Geom.faceCenter
    norm_num [Real.sqrt_zero]
  · unfold Geom.centeredV1 Geom.distanceFromCenter Geom.videoCenterV1
      Geom.faceCenter Geom.jsNumOr
    norm_num
    exact Real.le_sqrt_of_sq_le (by norm_num)
